import Mathlib

/-!
Verification of the MAGDA DSL Go parser (parsers/go/parser.go).

This file shallowly embeds the parser: Go strings are Lean `String`s
(scanned as rune lists via `toList`, matching Go's `range` over a string),
Go `map[string]string` / `map[string]interface{}` values are association
lists with overwrite-on-insert semantics, `int` is `Int` (the int64
overflow of `strconv.Atoi` is not modelled; no claim exercises it),
`float64` results of `strconv.ParseFloat` are modelled exactly as `Rat`
on the plain decimal literals the DSL grammar admits (hex floats,
Inf/NaN and binary rounding are not exercised by any claim), and a Go
runtime panic (the failed type assertion `action["index"].(int)`) is an
explicit `none` / `panicked` outcome.
-/

/-- Go `strings.TrimSpace` restricted to ASCII whitespace
(space, tab, newline, carriage return, vertical tab, form feed);
the DSL inputs at issue contain no other Unicode space. -/
def isGoSpace (c : Char) : Bool :=
  c == ' ' || c == '\t' || c == '\n' || c == '\r' ||
  c == Char.ofNat 11 || c == Char.ofNat 12

def trimListGo (cs : List Char) : List Char :=
  ((cs.dropWhile isGoSpace).reverse.dropWhile isGoSpace).reverse

def trimGo (s : String) : String :=
  String.mk (trimListGo s.toList)

/-- Go `strings.HasPrefix`. -/
def hasPrefixGo (s pre : String) : Bool :=
  s.toList.take pre.toList.length == pre.toList

/-- Numeric value of a list of decimal digit characters. -/
def digitsVal (cs : List Char) : Nat :=
  cs.foldl (fun a c => a * 10 + (c.toNat - 48)) 0

/-- Go `strconv.Atoi`: optional sign followed by one or more decimal
digits.  int64 overflow is not modelled. -/
def atoi (s : String) : Option Int :=
  match s.toList with
  | [] => none
  | '+' :: cs =>
      if cs ≠ [] ∧ cs.all (·.isDigit) then some ((digitsVal cs : Nat) : Int) else none
  | '-' :: cs =>
      if cs ≠ [] ∧ cs.all (·.isDigit) then some (-((digitsVal cs : Nat) : Int)) else none
  | cs =>
      if cs.all (·.isDigit) then some ((digitsVal cs : Nat) : Int) else none

def parseDigits? (cs : List Char) : Option Nat :=
  if cs ≠ [] ∧ cs.all (·.isDigit) then some (digitsVal cs) else none

/-- Decimal mantissa `digits`, `digits.digits`, `digits.` or `.digits`
(at least one digit overall), valued exactly as a rational. -/
def parseMantissa (cs : List Char) : Option Rat :=
  match cs.findIdx? (· == '.') with
  | none => (parseDigits? cs).map (fun n => (n : Rat))
  | some i =>
      let ip := cs.take i
      let fp := cs.drop (i + 1)
      if fp.any (· == '.') then none
      else if ip.all (·.isDigit) ∧ fp.all (·.isDigit) ∧ (ip ≠ [] ∨ fp ≠ []) then
        some ((digitsVal ip : Rat) + (digitsVal fp : Rat) / (10 : Rat) ^ fp.length)
      else none

def parseExp (cs : List Char) : Option Int :=
  match cs with
  | '+' :: ds => (parseDigits? ds).map (fun n => (n : Int))
  | '-' :: ds => (parseDigits? ds).map (fun n => -(n : Int))
  | ds => (parseDigits? ds).map (fun n => (n : Int))

/-- Go `strconv.ParseFloat` on the plain decimal literals produced by the
DSL grammar (optional sign, decimal mantissa, optional exponent), valued
exactly in `Rat`.  Hex floats, Inf/NaN, digit underscores and float64
rounding are not modelled: no claim input needs them. -/
def parseFloat (s : String) : Option Rat :=
  let sb : Rat × List Char :=
    match s.toList with
    | '+' :: cs => (1, cs)
    | '-' :: cs => (-1, cs)
    | cs => (1, cs)
  match sb.2.findIdx? (fun c => c == 'e' || c == 'E') with
  | none => (parseMantissa sb.2).map (fun m => sb.1 * m)
  | some i =>
      match parseMantissa (sb.2.take i), parseExp (sb.2.drop (i + 1)) with
      | some m, some e => some (sb.1 * m * (10 : Rat) ^ e)
      | _, _ => none

/-- A dynamic value stored in a Go `map[string]interface{}` action record:
the parser only ever stores strings, ints, float64s, bools and the empty
notes slice. -/
inductive Value where
  | str (s : String)
  | int (n : Int)
  | num (q : Rat)
  | bool (b : Bool)
  | vlist (vs : List Value)

/-- An action record: a Go `map[string]interface{}` as an association
list, written in insertion order. -/
abbrev ActionRec := List (String × Value)

/-- Go map assignment `m[k] = v`: overwrite if present, append if not. -/
def ActionRec.set (a : ActionRec) (k : String) (v : Value) : ActionRec :=
  if a.any (fun p => p.1 == k) then a.map (fun p => if p.1 == k then (k, v) else p)
  else a ++ [(k, v)]

/-- Go `map[string]string` assignment for the parameter map. -/
def setParam (ps : List (String × String)) (k v : String) : List (String × String) :=
  if ps.any (fun p => p.1 == k) then ps.map (fun p => if p.1 == k then (k, v) else p)
  else ps ++ [(k, v)]

/-- Go map lookup `v, ok := m[k]`. -/
def lookupP (ps : List (String × String)) (k : String) : Option String :=
  (ps.find? (fun p => p.1 == k)).map (fun p => p.2)

/-- Position of the last occurrence of `c` in `cs`
(Go `strings.LastIndex` on a single rune). -/
def lastIndexOf (cs : List Char) (c : Char) : Option Nat :=
  (cs.reverse.findIdx? (· == c)).map (fun j => cs.length - 1 - j)

/-- Scanner state of `extractParams` (parser.go:480-570): the parameter
map built so far, the `currentKey` and `currentValue` builders, the
quote/escape flags, `expectingValue`, and `currentParamKey`. -/
structure EPSt where
  params : List (String × String)
  curKey : String
  curVal : String
  inString : Bool
  escape : Bool
  expectingValue : Bool
  curParamKey : String

/-- One character of the `extractParams` scan, mirroring the Go switch
(parser.go:504-559). -/
def stepParam (st : EPSt) (c : Char) : EPSt :=
  if st.escape then
    { st with curVal := if st.inString then st.curVal.push c else st.curVal,
              escape := false }
  else if c = '\\' then
    { st with escape := true,
              curVal := if st.inString then st.curVal.push c else st.curVal }
  else if c = '"' then
    if st.inString then
      -- closing quote: store the (untrimmed) string value if a key is pending
      if st.curParamKey ≠ "" then
        { st with inString := false,
                  params := setParam st.params st.curParamKey st.curVal,
                  curParamKey := "", curVal := "", expectingValue := false }
      else { st with inString := false }
    else { st with inString := true }
  else if c = '=' then
    if st.inString then { st with curVal := st.curVal.push c }
    else { st with curParamKey := trimGo st.curKey, curKey := "",
                   expectingValue := true }
  else if c = ',' then
    if st.inString then { st with curVal := st.curVal.push c }
    else if st.curParamKey ≠ "" ∧ st.curVal.length > 0 then
      { st with params := setParam st.params st.curParamKey (trimGo st.curVal),
                curParamKey := "", curVal := "", curKey := "",
                expectingValue := false }
    else st
  else if st.expectingValue then { st with curVal := st.curVal.push c }
  else { st with curKey := st.curKey.push c }

/-- `extractParams` (parser.go:480-570): key=value pairs between the
first `(` and the last `)`, scanned with the state machine above; a
trailing pending parameter with a nonempty trimmed value is stored at
the end (parser.go:562-567). -/
def extractParams (call : String) : List (String × String) :=
  let cs := call.toList
  match cs.findIdx? (· == '('), lastIndexOf cs ')' with
  | some s, some e =>
      if s < e then
        let content := trimListGo (cs.drop (s + 1) |>.take (e - s - 1))
        if content = [] then []
        else
          let fin := content.foldl stepParam ⟨[], "", "", false, false, false, ""⟩
          if fin.curParamKey ≠ "" then
            let v := trimGo fin.curVal
            if v ≠ "" then setParam fin.params fin.curParamKey v else fin.params
          else fin.params
      else []
  | _, _ => []

/-- Scanner state of `splitMethodChains` (parser.go:184-235). -/
structure SMSt where
  parts : List String
  current : String
  depth : Int
  inString : Bool
  escape : Bool

/-- One character of the `splitMethodChains` scan (parser.go:191-228).
The Go source also contains a loop that tries to advance the `range`
index past `.`/space/newline after a closing parenthesis; in Go a
`range` loop reassigns its index variable on every iteration, so that
loop has no effect on the scan and the separator characters simply land
at the front of the next part (where `TrimSpace` and the `.`-leading
operation keywords absorb them). -/
def stepSplit (st : SMSt) (c : Char) : SMSt :=
  if st.escape then { st with current := st.current.push c, escape := false }
  else if c = '\\' then { st with escape := true, current := st.current.push c }
  else if c = '"' then
    { st with inString := !st.inString, current := st.current.push c }
  else if c = '(' then
    { st with depth := if st.inString then st.depth else st.depth + 1,
              current := st.current.push c }
  else if c = ')' then
    if st.inString then { st with current := st.current.push c }
    else if st.depth - 1 = 0 then
      { st with depth := 0, parts := st.parts ++ [st.current.push c], current := "" }
    else { st with depth := st.depth - 1, current := st.current.push c }
  else { st with current := st.current.push c }

/-- `splitMethodChains` (parser.go:184-235). -/
def splitMethodChains (dslCode : String) : List String :=
  let fin := dslCode.toList.foldl stepSplit ⟨[], "", 0, false, false⟩
  if fin.current.length > 0 then fin.parts ++ [fin.current] else fin.parts

/-- One element of the snapshot's `tracks` slice.  `isMap` records
whether the Go type assertion `track.(map[string]interface{})` holds;
`selected` / `name` are the respective keys when present with the
asserted type (`bool` / `string`), `none` otherwise. -/
structure TrackEntry where
  isMap : Bool
  selected : Option Bool
  name : Option String

/-- The externally supplied DAW state (Session Snapshot).  `hasStateMap`
records whether `state["state"]` is a `map[string]interface{}` and
`hasTracks` whether that map's `"tracks"` is an `[]interface{}`
(parser.go:582-590); `tracks` is the slice itself. -/
structure DAWState where
  hasStateMap : Bool
  hasTracks : Bool
  tracks : List TrackEntry

/-- The per-entry condition of the `getSelectedTrackIndex` loop
(parser.go:594-600): the entry is a map and its `selected` key is a
bool with value true. -/
def isSelEntry (t : TrackEntry) : Bool :=
  t.isMap && t.selected == some true

/-- The `for i, track := range tracks` loop of `getSelectedTrackIndex`
(parser.go:593-601): first index whose entry satisfies `isSelEntry`;
-1 when none. -/
def selLoop : List TrackEntry → Nat → Int
  | [], _ => -1
  | t :: ts, i => if isSelEntry t then (i : Int) else selLoop ts (i + 1)

/-- `getSelectedTrackIndex` (parser.go:576-604); the parser's `state`
field is `Option DAWState` (`none` is Go `nil`). -/
def getSelectedTrackIndex (state : Option DAWState) : Int :=
  match state with
  | none => -1
  | some s =>
      if s.hasStateMap then (if s.hasTracks then selLoop s.tracks 0 else -1) else -1

/-- The `Parser` struct (parser.go:20-23). -/
structure Parser where
  trackCounter : Int
  state : Option DAWState

/-- `NewParser` (parser.go:26-31). -/
def NewParser : Parser := ⟨0, none⟩

/-- `SetState` (parser.go:34-36). -/
def Parser.SetState (p : Parser) (state : Option DAWState) : Parser :=
  { p with state := state }

/-- `parseTrackCall` (parser.go:238-262).  The Go function's `error`
result is always nil; its real failure mode is the type assertion
`action["index"].(int)` at parser.go:261, which panics when the `index`
parameter is present but `strconv.Atoi` rejects it (then neither branch
at parser.go:251-259 ever set `action["index"]`).  `none` models that
panic; `some (action, index, newCounter)` is the normal return together
with the updated `p.trackCounter`. -/
def parseTrackCall (counter : Int) (call : String) : Option (ActionRec × Int × Int) :=
  let params := extractParams call
  let a0 : ActionRec := [("action", Value.str "create_track")]
  let a1 := match lookupP params "instrument" with
    | some v => a0.set "instrument" (Value.str v)
    | none => a0
  let a2 := match lookupP params "name" with
    | some v => a1.set "name" (Value.str v)
    | none => a1
  match lookupP params "index" with
  | some s =>
      match atoi s with
      | some k => some (a2.set "index" (Value.int k), k, k + 1)
      | none => none
  | none => some (a2.set "index" (Value.int counter), counter, counter + 1)

/-- The parameter-driven body of `parseClipCall` (parser.go:275-322),
after the track-context guard has produced a non-negative index. -/
def clipBody (call : String) (trackIndex : Int) : Except String ActionRec :=
  let params := extractParams call
  let a0 : ActionRec := [("action", Value.str "create_clip"), ("track", Value.int trackIndex)]
  match lookupP params "bar" with
  | some bar =>
      let a1 := a0.set "action" (Value.str "create_clip_at_bar")
      let a2 := match atoi bar with
        | some b => a1.set "bar" (Value.int b)
        | none => a1
      let a3 := match lookupP params "length_bars" with
        | some lb =>
            match atoi lb with
            | some l => a2.set "length_bars" (Value.int l)
            | none => a2
        | none => a2.set "length_bars" (Value.int 4)
      Except.ok a3
  | none =>
  match lookupP params "start" with
  | some s =>
      let a1 := match parseFloat s with
        | some q => a0.set "position" (Value.num q)
        | none => a0
      let a2 := match lookupP params "length" with
        | some l =>
            match parseFloat l with
            | some q => a1.set "length" (Value.num q)
            | none => a1
        | none => a1.set "length" (Value.num 4)
      Except.ok a2
  | none =>
  match lookupP params "position" with
  | some s =>
      let a1 := match parseFloat s with
        | some q => a0.set "position" (Value.num q)
        | none => a0
      let a2 := match lookupP params "length" with
        | some l =>
            match parseFloat l with
            | some q => a1.set "length" (Value.num q)
            | none => a1
        | none => a1.set "length" (Value.num 4)
      Except.ok a2
  | none => Except.error "clip call must specify bar or start/position"

/-- `parseClipCall` (parser.go:266-323): a negative `trackIndex` first
falls back to the selected track (parser.go:267-273), and only if that
is still negative does the call fail. -/
def parseClipCall (state : Option DAWState) (call : String) (trackIndex : Int) :
    Except String ActionRec :=
  if trackIndex < 0 then
    if getSelectedTrackIndex state < 0 then
      Except.error "no track context for clip call and no selected track found"
    else clipBody call (getSelectedTrackIndex state)
  else clipBody call trackIndex

/-- `parseMidiCall` (parser.go:326-341): the call text is ignored
(blank identifier in the Go signature); with a resolved track it always
returns the placeholder record with an empty notes slice. -/
def parseMidiCall (_call : String) (trackIndex : Int) : Except String ActionRec :=
  if trackIndex < 0 then Except.error "no track context for midi call"
  else Except.ok [("action", Value.str "add_midi"), ("track", Value.int trackIndex),
                  ("notes", Value.vlist [])]

/-- `parseFXCall` (parser.go:344-365). -/
def parseFXCall (call : String) (trackIndex : Int) : Except String ActionRec :=
  if trackIndex < 0 then Except.error "no track context for FX call"
  else
    let params := extractParams call
    let a0 : ActionRec := [("action", Value.str "add_track_fx"), ("track", Value.int trackIndex)]
    match lookupP params "fxname" with
    | some f => Except.ok (a0.set "fxname" (Value.str f))
    | none =>
        match lookupP params "instrument" with
        | some ins =>
            Except.ok ((a0.set "action" (Value.str "add_instrument")).set "fxname" (Value.str ins))
        | none => Except.error "FX call must specify fxname or instrument"

/-- `parseVolumeCall` (parser.go:368-388). -/
def parseVolumeCall (call : String) (trackIndex : Int) : Except String ActionRec :=
  if trackIndex < 0 then Except.error "no track context for volume call"
  else
    let params := extractParams call
    let a0 : ActionRec := [("action", Value.str "set_track_volume"), ("track", Value.int trackIndex)]
    match lookupP params "volume_db" with
    | some v =>
        Except.ok (match parseFloat v with
          | some q => a0.set "volume_db" (Value.num q)
          | none => a0)
    | none => Except.error "volume call must specify volume_db"

/-- `parsePanCall` (parser.go:391-411). -/
def parsePanCall (call : String) (trackIndex : Int) : Except String ActionRec :=
  if trackIndex < 0 then Except.error "no track context for pan call"
  else
    let params := extractParams call
    let a0 : ActionRec := [("action", Value.str "set_track_pan"), ("track", Value.int trackIndex)]
    match lookupP params "pan" with
    | some v =>
        Except.ok (match parseFloat v with
          | some q => a0.set "pan" (Value.num q)
          | none => a0)
    | none => Except.error "pan call must specify pan"

/-- `parseMuteCall` (parser.go:414-432); `BooleanTrue = "true"`. -/
def parseMuteCall (call : String) (trackIndex : Int) : Except String ActionRec :=
  if trackIndex < 0 then Except.error "no track context for mute call"
  else
    let params := extractParams call
    let a0 : ActionRec := [("action", Value.str "set_track_mute"), ("track", Value.int trackIndex)]
    match lookupP params "mute" with
    | some v => Except.ok (a0.set "mute" (Value.bool (v = "true")))
    | none => Except.error "mute call must specify mute"

/-- `parseSoloCall` (parser.go:435-453). -/
def parseSoloCall (call : String) (trackIndex : Int) : Except String ActionRec :=
  if trackIndex < 0 then Except.error "no track context for solo call"
  else
    let params := extractParams call
    let a0 : ActionRec := [("action", Value.str "set_track_solo"), ("track", Value.int trackIndex)]
    match lookupP params "solo" with
    | some v => Except.ok (a0.set "solo" (Value.bool (v = "true")))
    | none => Except.error "solo call must specify solo"

/-- `parseNameCall` (parser.go:456-474). -/
def parseNameCall (call : String) (trackIndex : Int) : Except String ActionRec :=
  if trackIndex < 0 then Except.error "no track context for name call"
  else
    let params := extractParams call
    let a0 : ActionRec := [("action", Value.str "set_track_name"), ("track", Value.int trackIndex)]
    match lookupP params "name" with
    | some v => Except.ok (a0.set "name" (Value.str v))
    | none => Except.error "name call must specify name"

/-- The operation keyword recognised for a part, in the order of the
`strings.HasPrefix` if-chain of `ParseDSL` (parser.go:63-171);
`other` is the chain's missing else branch. -/
inductive Op where
  | track | newClip | addMidi | fx | setVolume | setPan | setMute | setSolo | setName | other
deriving DecidableEq

def classify (part : String) : Op :=
  if hasPrefixGo part "track(" then Op.track
  else if hasPrefixGo part ".newClip(" then Op.newClip
  else if hasPrefixGo part ".addMidi(" then Op.addMidi
  else if hasPrefixGo part ".addFX(" || hasPrefixGo part ".addInstrument(" then Op.fx
  else if hasPrefixGo part ".setVolume(" then Op.setVolume
  else if hasPrefixGo part ".setPan(" then Op.setPan
  else if hasPrefixGo part ".setMute(" then Op.setMute
  else if hasPrefixGo part ".setSolo(" then Op.setSolo
  else if hasPrefixGo part ".setName(" then Op.setName
  else Op.other

/-- The bare-number check of the `len(params) == 0` branch
(parser.go:86-99): the trimmed content between the first `(` and the
last `)`, fed to `strconv.Atoi`. -/
def bareNumber (part : String) : Option Int :=
  let cs := part.toList
  match cs.findIdx? (· == '('), lastIndexOf cs ')' with
  | some s, some e =>
      if s < e then atoi (String.mk (trimListGo (cs.drop (s + 1) |>.take (e - s - 1))))
      else none
  | _, _ => none

/-- Result of handling one part inside the `ParseDSL` loop: continue
with updated accumulator / current track / counter, abort the parse
with an error, or panic. -/
inductive Step where
  | cont (actions : List ActionRec) (cur : Int) (counter : Int)
  | fail (msg : String)
  | panicked

/-- The track-creation tail of the `track(` branch (parser.go:102-108). -/
def creationStep (actions : List ActionRec) (counter : Int) (part : String) : Step :=
  match parseTrackCall counter part with
  | some (a, idx, k) => Step.cont (actions ++ [a]) idx k
  | none => Step.panicked

/-- One iteration of the `ParseDSL` part loop (parser.go:56-172). -/
def processPart (state : Option DAWState) (actions : List ActionRec) (cur counter : Int)
    (part0 : String) : Step :=
  let part := trimGo part0
  if part = "" then Step.cont actions cur counter
  else
    match classify part with
    | Op.track =>
        let params := extractParams part
        (match lookupP params "id" with
         | some idStr =>
             -- track(id=1): on Atoi success set the context and emit nothing;
             -- on failure fall through to the creation call (parser.go:66-72)
             (match atoi idStr with
              | some n => Step.cont actions (n - 1) counter
              | none => creationStep actions counter part)
         | none =>
             (match lookupP params "selected" with
              | some selectedStr =>
                  if selectedStr = "true" ∨ selectedStr = "True" then
                    (if 0 ≤ getSelectedTrackIndex state then
                       Step.cont actions (getSelectedTrackIndex state) counter
                     else Step.fail "no selected track found in state")
                  else creationStep actions counter part
              | none =>
                  if extractParams part = [] then
                    (match bareNumber part with
                     | some n => Step.cont actions (n - 1) counter
                     | none => creationStep actions counter part)
                  else creationStep actions counter part))
    | Op.newClip =>
        -- fallback to the selected track when there is no chain context
        -- (parser.go:112-116); note `currentTrackIndex` itself is not updated
        let t := if cur < 0 then getSelectedTrackIndex state else cur
        (match parseClipCall state part t with
         | Except.ok a => Step.cont (actions ++ [a]) cur counter
         | Except.error m => Step.fail ("failed to parse clip call: " ++ m))
    | Op.addMidi =>
        (match parseMidiCall part cur with
         | Except.ok a => Step.cont (actions ++ [a]) cur counter
         | Except.error m => Step.fail ("failed to parse midi call: " ++ m))
    | Op.fx =>
        (match parseFXCall part cur with
         | Except.ok a => Step.cont (actions ++ [a]) cur counter
         | Except.error m => Step.fail ("failed to parse FX call: " ++ m))
    | Op.setVolume =>
        (match parseVolumeCall part cur with
         | Except.ok a => Step.cont (actions ++ [a]) cur counter
         | Except.error m => Step.fail ("failed to parse volume call: " ++ m))
    | Op.setPan =>
        (match parsePanCall part cur with
         | Except.ok a => Step.cont (actions ++ [a]) cur counter
         | Except.error m => Step.fail ("failed to parse pan call: " ++ m))
    | Op.setMute =>
        (match parseMuteCall part cur with
         | Except.ok a => Step.cont (actions ++ [a]) cur counter
         | Except.error m => Step.fail ("failed to parse mute call: " ++ m))
    | Op.setSolo =>
        (match parseSoloCall part cur with
         | Except.ok a => Step.cont (actions ++ [a]) cur counter
         | Except.error m => Step.fail ("failed to parse solo call: " ++ m))
    | Op.setName =>
        (match parseNameCall part cur with
         | Except.ok a => Step.cont (actions ++ [a]) cur counter
         | Except.error m => Step.fail ("failed to parse name call: " ++ m))
    | Op.other => Step.cont actions cur counter

/-- Outcome of `ParseDSL`: the returned slice, the returned error, or a
runtime panic. -/
inductive Outcome where
  | ok (actions : List ActionRec)
  | error (msg : String)
  | panicked

/-- The `ParseDSL` loop over the split parts, followed by the final
empty-result check (parser.go:174-176). -/
def runParts (state : Option DAWState) :
    List String → List ActionRec → Int → Int → Outcome
  | [], actions, _, _ =>
      if actions.isEmpty then Outcome.error "no actions found in DSL code"
      else Outcome.ok actions
  | p :: ps, actions, cur, counter =>
      match processPart state actions cur counter p with
      | Step.cont a c k => runParts state ps a c k
      | Step.fail m => Outcome.error m
      | Step.panicked => Outcome.panicked

/-- `ParseDSL` (parser.go:43-180). -/
def Parser.ParseDSL (p : Parser) (dslCode : String) : Outcome :=
  let code := trimGo dslCode
  if code = "" then Outcome.error "empty DSL code"
  else runParts p.state (splitMethodChains code) [] (-1) p.trackCounter

/-- The Go-level return value of `ParseDSL` on a fresh parser whose
state was set to `state`: `some (actions, err)` mirrors the pair
`([]map[string]interface{}, error)` — every error site in the source
returns a nil slice — and `none` is a panic (no return at all). -/
def parseDSLReturn (dslCode : String) (state : Option DAWState) :
    Option (List ActionRec × Option String) :=
  match (NewParser.SetState state).ParseDSL dslCode with
  | Outcome.ok l => some (l, none)
  | Outcome.error e => some ([], some e)
  | Outcome.panicked => none


/-- A Session Snapshot whose only track (index 0) is flagged selected. -/
def snapshotSelected0 : DAWState :=
  ⟨true, true, [⟨true, some true, some "Lead"⟩]⟩

/-- A Session Snapshot in which index 1 holds the first selected track. -/
def snapshotSelected1 : DAWState :=
  ⟨true, true, [⟨true, some false, some "A"⟩, ⟨true, some true, some "B"⟩]⟩

/-- The track indices assigned by a sequence of successive track-creation
calls on one `Parser` instance, threading `p.trackCounter` exactly as
repeated `parseTrackCall` invocations do; `none` when some call panics. -/
def creationIndices (counter : Int) : List String → Option (List Int)
  | [] => some []
  | c :: cs =>
      match parseTrackCall counter c with
      | some (_, idx, k) => (creationIndices k cs).map (fun l => idx :: l)
      | none => none

/-- The list `c, c+1, ..., c+n-1`. -/
def intRange (c : Int) : Nat → List Int
  | 0 => []
  | n + 1 => c :: intRange (c + 1) n

theorem intRange_eq (n : Nat) : ∀ c : Int,
    intRange c n = (List.range n).map (fun i => c + Int.ofNat i) := by
  induction n with
  | zero => intro c; simp [intRange]
  | succ n ih =>
      intro c
      rw [List.range_succ_eq_map, intRange, ih (c + 1)]
      simp only [List.map_cons, List.map_map]
      congr 1
      · simp [Int.ofNat_zero]
      · refine List.map_congr_left (fun i _ => ?_)
        have h1 : Int.ofNat i.succ = Int.ofNat i + 1 := rfl
        simp only [Function.comp_apply, h1]
        ring

theorem parseTrackCall_no_index (counter : Int) (call : String)
    (h : lookupP (extractParams call) "index" = none) :
    ∃ a, parseTrackCall counter call = some (a, counter, counter + 1) := by
  simp only [parseTrackCall, h]
  exact ⟨_, rfl⟩

theorem creationIndices_all_implicit (calls : List String) :
    ∀ counter : Int, (∀ c ∈ calls, lookupP (extractParams c) "index" = none) →
      creationIndices counter calls = some (intRange counter calls.length) := by
  induction calls with
  | nil => intro counter _; simp [creationIndices, intRange]
  | cons c cs ih =>
      intro counter h
      obtain ⟨a, ha⟩ := parseTrackCall_no_index counter c (h c (by simp))
      simp only [creationIndices, ha]
      rw [ih (counter + 1) (fun x hx => h x (by simp [hx]))]
      simp [intRange]

/-- C2: the claim says malformed numeric text in a numeric-typed
parameter is treated as absent and the parse returns normally or with a
typed error, never aborting abnormally.  The code violates this:
`track(index=abc)` leaves `action["index"]` unset (neither branch at
parser.go:251-259 runs a successful assignment) and the type assertion
`action["index"].(int)` at parser.go:261 then panics on a nil
interface.  This theorem evaluates the embedding at that failing input:
both the builder and the whole parse end in the panic outcome. -/
theorem C2_malformed_index_panics :
    parseTrackCall 0 "track(index=abc)" = none ∧
    parseDSLReturn "track(index=abc)" none = none :=
  ⟨rfl, rfl⟩

/-- C3 counterexample: the claim says an `addMidi` call whose `notes`
parameter is absent fails with a missing-required-parameter error.  On
the code, `track().addMidi()` (no `notes` at all) succeeds and emits an
`add_midi` record, refuting the claim. -/
theorem C3_counterexample :
    parseDSLReturn "track().addMidi()" none
      = some ([[("action", Value.str "create_track"), ("index", Value.int 0)],
               [("action", Value.str "add_midi"), ("track", Value.int 0),
                ("notes", Value.vlist [])]], none) :=
  rfl

/-- C3 (amended): `parseMidiCall` ignores its parameters entirely: with
a resolved (non-negative) track index it always emits the placeholder
record `{action: add_midi, track, notes: []}` whether or not `notes`
was given, and it fails only when the track index is unresolved. -/
theorem C3_addMidi_placeholder (call : String) (idx : Int) :
    (0 ≤ idx → parseMidiCall call idx
        = Except.ok [("action", Value.str "add_midi"), ("track", Value.int idx),
                     ("notes", Value.vlist [])]) ∧
    (idx < 0 → parseMidiCall call idx
        = Except.error "no track context for midi call") := by
  constructor
  · intro h
    unfold parseMidiCall
    rw [if_neg (by omega)]
  · intro h
    unfold parseMidiCall
    rw [if_pos h]

/-- C3 witness: the amended theorem applied at a concrete call that
does carry a `notes` parameter, on track 0. -/
theorem C3_addMidi_placeholder_witness :
    parseMidiCall ".addMidi(notes=[60])" 0
      = Except.ok [("action", Value.str "add_midi"), ("track", Value.int 0),
                   ("notes", Value.vlist [])] :=
  (C3_addMidi_placeholder ".addMidi(notes=[60])" 0).1 (by decide)

/-- C5: within one `Parser` instance, successive track-creation calls
with no explicit `index` parameter are assigned the strictly increasing
indices 0, 1, 2, ... (the list `intRange 0 n = [0, ..., n-1]`), and a
creation call with explicit `index=k` is assigned index k and sets the
next counter value to k+1. -/
theorem C5_track_counter (calls : List String) (counter k : Int) (call s : String) :
    ((∀ c ∈ calls, lookupP (extractParams c) "index" = none) →
       creationIndices 0 calls
         = some ((List.range calls.length).map (fun i => Int.ofNat i))) ∧
    (lookupP (extractParams call) "index" = some s → atoi s = some k →
       ∃ a, parseTrackCall counter call = some (a, k, k + 1)) := by
  constructor
  · intro h
    rw [creationIndices_all_implicit calls 0 h, intRange_eq]
    congr 1
    exact List.map_congr_left (fun i _ => by ring)
  · intro h1 h2
    simp only [parseTrackCall, h1, h2]
    exact ⟨_, rfl⟩

/-- C5 witness: two implicit creations get indices [0, 1]; an explicit
`index=5` creation is assigned 5 and sets the counter to 6. -/
theorem C5_track_counter_witness :
    creationIndices 0 ["track()", "track(name=\"A\")"]
      = some ((List.range 2).map (fun i => Int.ofNat i)) ∧
    (∃ a, parseTrackCall 0 "track(index=5)" = some (a, 5, 6)) := by
  constructor
  · exact (C5_track_counter ["track()", "track(name=\"A\")"] 0 5 "x" "5").1 (by decide)
  · exact (C5_track_counter [] 0 5 "track(index=5)" "5").2 (by decide) (by decide)

/-- C8: whenever `ParseDSL` returns an error, the returned action slice
is nil: every error site in the source returns `nil, err`
(parser.go:46, 84, 105, 119, ... 175), so no non-empty prefix of the
already-emitted records ever escapes. -/
theorem C8_error_nil_actions (code : String) (state : Option DAWState)
    (acts : List ActionRec) (e : String)
    (h : parseDSLReturn code state = some (acts, some e)) : acts = [] := by
  unfold parseDSLReturn at h
  cases hh : (NewParser.SetState state).ParseDSL code <;> rw [hh] at h
  · simp at h
  · simp at h
    exact h.1
  · simp at h

/-- C8 witness: a failing parse (leading clip call, no snapshot) whose
Go return value is the pair (nil slice, error). -/
theorem C8_error_nil_actions_witness :
    parseDSLReturn ".newClip(bar=3)" none
      = some ([], some "failed to parse clip call: no track context for clip call and no selected track found")
    ∧ ([] : List ActionRec) = [] :=
  ⟨rfl, C8_error_nil_actions ".newClip(bar=3)" none []
      "failed to parse clip call: no track context for clip call and no selected track found" rfl⟩

/-- C9: two independently constructed `Parser` instances (each built by
`NewParser` and given the same Session Snapshot via `SetState`) produce
identical `ParseDSL` results on the same input string: the parse is a
pure function of the input and the snapshot. -/
theorem C9_deterministic (code : String) (state : Option DAWState) (p q : Parser)
    (hp : p = NewParser.SetState state) (hq : q = NewParser.SetState state) :
    p.ParseDSL code = q.ParseDSL code := by
  subst hp hq
  rfl

/-- C9 witness: two fresh instances with the same snapshot agree on a
concrete program. -/
theorem C9_deterministic_witness :
    (NewParser.SetState (some snapshotSelected1)).ParseDSL
        "track(selected=true).setVolume(volume_db=-3.0)"
      = (NewParser.SetState (some snapshotSelected1)).ParseDSL
        "track(selected=true).setVolume(volume_db=-3.0)" :=
  C9_deterministic "track(selected=true).setVolume(volume_db=-3.0)"
    (some snapshotSelected1) _ _ rfl rfl

/-- C10: a part whose trimmed text is recognised by none of the
`strings.HasPrefix` tests of the `ParseDSL` if-chain (classified
`Op.other`) is silently skipped: no action record is emitted, no error
is raised, and parsing continues with the remaining parts unchanged. -/
theorem C10_unrecognized_skipped (state : Option DAWState) (ps : List String)
    (acc : List ActionRec) (cur counter : Int) (p : String)
    (h : classify (trimGo p) = Op.other) :
    runParts state (p :: ps) acc cur counter = runParts state ps acc cur counter := by
  have hp : processPart state acc cur counter p = Step.cont acc cur counter := by
    unfold processPart
    by_cases h0 : trimGo p = ""
    · rw [if_pos h0]
    · rw [if_neg h0, h]
  simp only [runParts, hp]

/-- C10 witness: a `.bogus(x=1)` segment is skipped. -/
theorem C10_unrecognized_skipped_witness :
    runParts none [".bogus(x=1)"] [] (-1) 0 = runParts none [] [] (-1) 0 :=
  C10_unrecognized_skipped none [] [] (-1) 0 ".bogus(x=1)" (by decide)

theorem parseFloat_15 : parseFloat "1.5" = some (3/2 : Rat) := by
  have h : parseFloat "1.5"
      = some ((1 : Rat) * ((Nat.cast 1 : Rat) + (Nat.cast 5 : Rat) / (10 : Rat) ^ (1 : Nat))) := rfl
  rw [h]
  norm_num

theorem parseFloat_20 : parseFloat "2.0" = some (2 : Rat) := by
  have h : parseFloat "2.0"
      = some ((1 : Rat) * ((Nat.cast 2 : Rat) + (Nat.cast 0 : Rat) / (10 : Rat) ^ (1 : Nat))) := rfl
  rw [h]
  norm_num

theorem parseClipCall_noctx (state : Option DAWState) (call : String) (idx : Int)
    (hidx : idx < 0) (hsel : getSelectedTrackIndex state < 0) :
    parseClipCall state call idx
      = Except.error "no track context for clip call and no selected track found" := by
  unfold parseClipCall
  rw [if_pos hidx, if_pos hsel]

/-- C1 counterexample: the claim says every chained non-track call with
no current track falls back to the snapshot's selected track before
failing.  On the code, a `.setVolume` call with no track context fails
even though the snapshot has a selected track (index 0): only `.newClip`
has the fallback (parser.go:112-116, 267-272). -/
theorem C1_counterexample :
    parseDSLReturn ".setVolume(volume_db=-3.0)" (some snapshotSelected0)
      = some ([], some "failed to parse volume call: no track context for volume call") :=
  rfl

/-- C1 (amended): with no current track (negative index), only the
newClip builder consults the Session Snapshot's selected track; the
midi, FX, volume, pan, mute, solo, and name builders fail immediately
with their context error regardless of the snapshot, and newClip fails
only when the snapshot has no selected track. -/
theorem C1_fallback_only_newClip (state : Option DAWState) (call : String)
    (idx : Int) (h : idx < 0) :
    parseMidiCall call idx = Except.error "no track context for midi call" ∧
    parseFXCall call idx = Except.error "no track context for FX call" ∧
    parseVolumeCall call idx = Except.error "no track context for volume call" ∧
    parsePanCall call idx = Except.error "no track context for pan call" ∧
    parseMuteCall call idx = Except.error "no track context for mute call" ∧
    parseSoloCall call idx = Except.error "no track context for solo call" ∧
    parseNameCall call idx = Except.error "no track context for name call" ∧
    parseClipCall state call idx
      = (if getSelectedTrackIndex state < 0 then
           Except.error "no track context for clip call and no selected track found"
         else clipBody call (getSelectedTrackIndex state)) := by
  refine ⟨?_, ?_, ?_, ?_, ?_, ?_, ?_, ?_⟩
  · unfold parseMidiCall; rw [if_pos h]
  · unfold parseFXCall; rw [if_pos h]
  · unfold parseVolumeCall; rw [if_pos h]
  · unfold parsePanCall; rw [if_pos h]
  · unfold parseMuteCall; rw [if_pos h]
  · unfold parseSoloCall; rw [if_pos h]
  · unfold parseNameCall; rw [if_pos h]
  · unfold parseClipCall; rw [if_pos h]

/-- C1 witness: the amended theorem at track index -1, once for a
volume call (fails despite a selected track in the snapshot) and once
for a clip call (falls back to the snapshot). -/
theorem C1_fallback_only_newClip_witness :
    parseVolumeCall ".setVolume(volume_db=-3.0)" (-1)
      = Except.error "no track context for volume call" ∧
    parseClipCall (some snapshotSelected0) ".newClip(bar=3)" (-1)
      = (if getSelectedTrackIndex (some snapshotSelected0) < 0 then
           Except.error "no track context for clip call and no selected track found"
         else clipBody ".newClip(bar=3)" (getSelectedTrackIndex (some snapshotSelected0))) :=
  ⟨(C1_fallback_only_newClip none ".setVolume(volume_db=-3.0)" (-1) (by decide)).2.2.1,
   (C1_fallback_only_newClip (some snapshotSelected0) ".newClip(bar=3)" (-1)
      (by decide)).2.2.2.2.2.2.2⟩

/-- C4 counterexample: the claim says every statement whose first call
segment is not a track call fails, regardless of the Session Snapshot.
Two refutations on the code.  First, a leading `.newClip(bar=3)` with a
snapshot holding a selected track succeeds via the selected-track
fallback and emits a clip record.  Second, `currentTrackIndex` is
initialised once per parse (parser.go:50) and never reset at statement
boundaries, so in the two-statement program `track() .addMidi()` the
second statement leads with a chained `.addMidi` call yet succeeds via
the carried-over track context. -/
theorem C4_counterexample :
    parseDSLReturn ".newClip(bar=3)" (some snapshotSelected0)
      = some ([[("action", Value.str "create_clip_at_bar"), ("track", Value.int 0),
                ("bar", Value.int 3), ("length_bars", Value.int 4)]], none) ∧
    parseDSLReturn "track() .addMidi()" none
      = some ([[("action", Value.str "create_track"), ("index", Value.int 0)],
               [("action", Value.str "add_midi"), ("track", Value.int 0),
                ("notes", Value.vlist [])]], none) :=
  ⟨rfl, rfl⟩

/-- The `ParseDSL` loop entered at its initial state (`actions = []`,
`currentTrackIndex = -1`) and a head part classified as a chained
non-track operation: the non-clip operations fail unconditionally, and
newClip fails when the snapshot has no selected track. -/
theorem runParts_leading_noctx (state : Option DAWState) (ps : List String)
    (counter : Int) (p : String) :
    ((classify (trimGo p) = Op.addMidi ∨ classify (trimGo p) = Op.fx ∨
      classify (trimGo p) = Op.setVolume ∨ classify (trimGo p) = Op.setPan ∨
      classify (trimGo p) = Op.setMute ∨ classify (trimGo p) = Op.setSolo ∨
      classify (trimGo p) = Op.setName) →
        ∃ e, runParts state (p :: ps) [] (-1) counter = Outcome.error e) ∧
    (classify (trimGo p) = Op.newClip → getSelectedTrackIndex state < 0 →
        ∃ e, runParts state (p :: ps) [] (-1) counter = Outcome.error e) := by
  constructor
  · intro h
    have h0 : ¬ trimGo p = "" := by
      intro h0
      rw [h0] at h
      exact absurd h (by decide)
    rcases h with h | h | h | h | h | h | h
    · exact ⟨_, by simp only [runParts]; unfold processPart; rw [if_neg h0, h]; rfl⟩
    · exact ⟨_, by simp only [runParts]; unfold processPart; rw [if_neg h0, h]; rfl⟩
    · exact ⟨_, by simp only [runParts]; unfold processPart; rw [if_neg h0, h]; rfl⟩
    · exact ⟨_, by simp only [runParts]; unfold processPart; rw [if_neg h0, h]; rfl⟩
    · exact ⟨_, by simp only [runParts]; unfold processPart; rw [if_neg h0, h]; rfl⟩
    · exact ⟨_, by simp only [runParts]; unfold processPart; rw [if_neg h0, h]; rfl⟩
    · exact ⟨_, by simp only [runParts]; unfold processPart; rw [if_neg h0, h]; rfl⟩
  · intro h hsel
    have h0 : ¬ trimGo p = "" := by
      intro h0
      rw [h0] at h
      exact absurd h (by decide)
    refine ⟨"failed to parse clip call: no track context for clip call and no selected track found", ?_⟩
    simp only [runParts]
    unfold processPart
    rw [if_neg h0, h]
    simp only [show ((-1 : Int) < 0) = True from by simp, if_true]
    rw [parseClipCall_noctx state (trimGo p) (getSelectedTrackIndex state) hsel hsel]
    rfl

/-- C4 (amended): for a program whose first call segment — the first
part produced by the chain splitter, where the current track index is
still none — is a recognised chained operation other than a track call,
the whole parse fails with an error: unconditionally when that segment
is addMidi, addFX/addInstrument, setVolume, setPan, setMute, setSolo or
setName, and, when it is newClip, exactly when the Session Snapshot has
no selected track.  Only the program-initial segment is covered: the
current track index is never reset at statement boundaries, so a
statement-leading chained call after an earlier track resolution
succeeds via the carried-over context (see the counterexample). -/
theorem C4_leading_nontrack (p : Parser) (code q : String) (qs : List String)
    (hsplit : splitMethodChains (trimGo code) = q :: qs) :
    ((classify (trimGo q) = Op.addMidi ∨ classify (trimGo q) = Op.fx ∨
      classify (trimGo q) = Op.setVolume ∨ classify (trimGo q) = Op.setPan ∨
      classify (trimGo q) = Op.setMute ∨ classify (trimGo q) = Op.setSolo ∨
      classify (trimGo q) = Op.setName) →
        ∃ e, p.ParseDSL code = Outcome.error e) ∧
    (classify (trimGo q) = Op.newClip → getSelectedTrackIndex p.state < 0 →
        ∃ e, p.ParseDSL code = Outcome.error e) := by
  by_cases hc : trimGo code = ""
  · constructor
    · intro _
      exact ⟨"empty DSL code", by simp only [Parser.ParseDSL]; rw [if_pos hc]⟩
    · intro _ _
      exact ⟨"empty DSL code", by simp only [Parser.ParseDSL]; rw [if_pos hc]⟩
  · have hP : p.ParseDSL code = runParts p.state (q :: qs) [] (-1) p.trackCounter := by
      simp only [Parser.ParseDSL]
      rw [if_neg hc, hsplit]
    constructor
    · intro h
      obtain ⟨e, he⟩ := (runParts_leading_noctx p.state qs p.trackCounter q).1 h
      exact ⟨e, by rw [hP, he]⟩
    · intro h hsel
      obtain ⟨e, he⟩ := (runParts_leading_noctx p.state qs p.trackCounter q).2 h hsel
      exact ⟨e, by rw [hP, he]⟩

/-- C4 witness: a program consisting of one leading `.setVolume` call
fails even with a selected track in the snapshot. -/
theorem C4_leading_nontrack_witness :
    ∃ e, (NewParser.SetState (some snapshotSelected0)).ParseDSL ".setVolume(volume_db=-3.0)"
      = Outcome.error e :=
  (C4_leading_nontrack (NewParser.SetState (some snapshotSelected0))
      ".setVolume(volume_db=-3.0)" ".setVolume(volume_db=-3.0)" [] (by decide)).1
    (Or.inr (Or.inr (Or.inl (by decide))))

/-- C6: with a resolved (non-negative) track index, `newClip(bar=3)`
with no `length_bars` emits `{action: create_clip_at_bar, track, bar: 3,
length_bars: 4}`; `newClip(start=1.5, length=2.0)` emits
`{action: create_clip, track, position: 1.5, length: 2.0}`; and
`newClip(length_bars=4)` (none of bar/start/position) fails with the
missing-required-parameter error. -/
theorem C6_newClip_forms (state : Option DAWState) (t : Int) (h : 0 ≤ t) :
    parseClipCall state ".newClip(bar=3)" t
      = Except.ok [("action", Value.str "create_clip_at_bar"), ("track", Value.int t),
                   ("bar", Value.int 3), ("length_bars", Value.int 4)] ∧
    parseClipCall state ".newClip(start=1.5, length=2.0)" t
      = Except.ok [("action", Value.str "create_clip"), ("track", Value.int t),
                   ("position", Value.num (3/2)), ("length", Value.num 2)] ∧
    parseClipCall state ".newClip(length_bars=4)" t
      = Except.error "clip call must specify bar or start/position" := by
  have ht : ¬ t < 0 := by omega
  refine ⟨?_, ?_, ?_⟩
  · unfold parseClipCall
    rw [if_neg ht]
    rfl
  · unfold parseClipCall
    rw [if_neg ht]
    have hb : clipBody ".newClip(start=1.5, length=2.0)" t
        = Except.ok [("action", Value.str "create_clip"), ("track", Value.int t),
            ("position", Value.num ((1 : Rat) *
              ((Nat.cast 1 : Rat) + (Nat.cast 5 : Rat) / (10 : Rat) ^ (1 : Nat)))),
            ("length", Value.num ((1 : Rat) *
              ((Nat.cast 2 : Rat) + (Nat.cast 0 : Rat) / (10 : Rat) ^ (1 : Nat))))] := rfl
    rw [hb]
    norm_num
  · unfold parseClipCall
    rw [if_neg ht]
    rfl

/-- C6 witness: the bar form on track 0. -/
theorem C6_newClip_forms_witness :
    parseClipCall none ".newClip(bar=3)" 0
      = Except.ok [("action", Value.str "create_clip_at_bar"), ("track", Value.int 0),
                   ("bar", Value.int 3), ("length_bars", Value.int 4)] :=
  (C6_newClip_forms none 0 (by decide)).1

theorem selLoop_eq_findIdx (l : List TrackEntry) : ∀ i : Nat,
    selLoop l i = if l.any isSelEntry
      then Int.ofNat (i + l.findIdx isSelEntry) else -1 := by
  induction l with
  | nil => intro i; simp [selLoop]
  | cons t ts ih =>
      intro i
      by_cases hsel : isSelEntry t
      · simp [selLoop, hsel, List.findIdx_cons]
      · simp only [selLoop, hsel, if_false, Bool.false_eq_true, List.any_cons,
          List.findIdx_cons, Bool.false_or, cond_false]
        rw [ih (i + 1)]
        by_cases ha : ts.any isSelEntry
        · simp only [ha, if_true, if_pos]
          congr 1
          omega
        · simp [ha]

/-- C7: processing a `track(selected=true)` segment sets the current
track to `getSelectedTrackIndex` and emits no action record when the
snapshot has a selected track, and aborts the whole parse with the
unresolved-selection error when it has none; and on a well-shaped
snapshot `getSelectedTrackIndex` is exactly the index of the first
tracks entry flagged selected (via `List.findIdx`), or -1 if none. -/
theorem C7_selected_reference :
    (∀ (state : Option DAWState) (ps : List String) (acc : List ActionRec) (cur counter : Int),
       (0 ≤ getSelectedTrackIndex state →
          runParts state ("track(selected=true)" :: ps) acc cur counter
            = runParts state ps acc (getSelectedTrackIndex state) counter) ∧
       (getSelectedTrackIndex state < 0 →
          runParts state ("track(selected=true)" :: ps) acc cur counter
            = Outcome.error "no selected track found in state")) ∧
    (∀ ts : List TrackEntry,
       getSelectedTrackIndex (some ⟨true, true, ts⟩)
         = if ts.any isSelEntry then Int.ofNat (ts.findIdx isSelEntry) else -1) := by
  constructor
  · intro state ps acc cur counter
    have hp : processPart state acc cur counter "track(selected=true)"
        = (if 0 ≤ getSelectedTrackIndex state then
             Step.cont acc (getSelectedTrackIndex state) counter
           else Step.fail "no selected track found in state") := rfl
    constructor
    · intro hsel
      simp only [runParts, hp, if_pos hsel]
    · intro hsel
      simp only [runParts, hp, if_neg (by omega : ¬ 0 ≤ getSelectedTrackIndex state)]
  · intro ts
    have h := selLoop_eq_findIdx ts 0
    simpa [getSelectedTrackIndex] using h

/-- C7 witness: on a snapshot whose first selected track sits at index
1, a `track(selected=true)` segment continues the parse with current
track `getSelectedTrackIndex` and appends nothing. -/
theorem C7_selected_reference_witness :
    runParts (some snapshotSelected1) ["track(selected=true)"] [] (-1) 0
      = runParts (some snapshotSelected1) [] []
          (getSelectedTrackIndex (some snapshotSelected1)) 0 :=
  (C7_selected_reference.1 (some snapshotSelected1) [] [] (-1) 0).1 (by decide)
